import Mathlib

/-
Verification of the web-store transaction module
(crates/rust-client/src/store/web_store/transaction/mod.rs).

The module's external collaborators (the IndexedDB bridge, the binary
codecs for digests, notes and scripts, and the account/note/tag stores)
are modelled as injected functions; the module's own logic
(filter encoding, row reconstruction, status derivation, the sequenced
apply) is translated statement by statement from the Rust source.
Rust panics (from unwrap and expect) are distinguished from returned
Result errors by the RunError wrapper.
-/

namespace WebStoreTransaction

/-- StoreError from the rust client, restricted to the variants reachable
from this module: DatabaseError carries a human-readable cause; the other
variants stand for the error kinds the external codecs produce and that
the question-mark operator converts into StoreError. -/
inductive StoreError where
  | DatabaseError : String → StoreError
  | AccountIdError : String → StoreError
  | ConversionError : String → StoreError
  | DeserializationError : String → StoreError
deriving DecidableEq, Repr

/-- Outcome wrapper distinguishing a returned Rust Result error from a
Rust panic (unwrap or expect), which aborts instead of returning. -/
inductive RunError (ε : Type) where
  | err : ε → RunError ε
  | panicked : String → RunError ε
deriving DecidableEq, Repr

/-- Decimal parse of a u32 as Rust u32::from_str: an optional leading
plus sign, then one or more ASCII digits, value below 2^32; anything
else (empty, stray characters, overflow) fails. -/
def parseU32 (s : String) : Option Nat :=
  let digits : List Char :=
    match s.data with
    | '+' :: rest => rest
    | cs => cs
  if digits.isEmpty then none
  else if digits.all (fun ch => ch.isDigit) then
    let n := digits.foldl (fun acc ch => acc * 10 + (ch.toNat - 48)) 0
    if n < 4294967296 then some n else none
  else none

/-- The persisted row shape (models::TransactionIdxdbObject): account id
and block number as text, optional commit height as text, digest fields
in their textual encoding, note data as byte blobs, optional script root
paired with optional script bytes, and the discarded flag. -/
structure TransactionIdxdbObject where
  account_id : String
  id : String
  init_account_state : String
  final_account_state : String
  input_notes : List Nat
  output_notes : List Nat
  script_root : Option String
  tx_script : Option (List Nat)
  block_num : String
  commit_height : Option String
  discarded : Bool
deriving DecidableEq, Repr

/-- The external binary codec adapters used by reconstruction, injected
as functions: AccountId::from_hex, Digest::try_from, and the
read_from_bytes deserializers for nullifier lists, output notes and
transaction scripts. Each may fail with a StoreError, as the Rust
question-mark conversions produce. -/
structure Codecs (AId Dig ONotes TScript : Type) where
  accountIdFromHex : String → Except StoreError AId
  digestTryFrom : String → Except StoreError Dig
  readNullifiersFromBytes : List Nat → Except StoreError (List Dig)
  readOutputNotesFromBytes : List Nat → Except StoreError ONotes
  readTxScriptFromBytes : List Nat → Except StoreError TScript

/-- Derived transaction lifecycle status. -/
inductive TransactionStatus where
  | Pending : TransactionStatus
  | Committed : Nat → TransactionStatus
  | Discarded : TransactionStatus
deriving DecidableEq, Repr

/-- The status match from get_transactions, arm for arm:
discarded wins, then a recorded commit height, then pending. -/
def transactionStatusOf (commit_height : Option Nat) (discarded : Bool) :
    TransactionStatus :=
  match commit_height, discarded with
  | _, true => TransactionStatus.Discarded
  | some block_num, false => TransactionStatus.Committed block_num
  | none, false => TransactionStatus.Pending

/-- The reconstructed typed record. -/
structure TransactionRecord (AId Dig ONotes TScript : Type) where
  id : Dig
  account_id : AId
  init_account_state : Dig
  final_account_state : Dig
  input_note_nullifiers : List Dig
  output_notes : ONotes
  transaction_script : Option TScript
  block_num : Nat
  transaction_status : TransactionStatus
deriving DecidableEq, Repr

/-- Panic message of Result::unwrap on an Err value. -/
def unwrapMsg : String := "called Result::unwrap on an Err value"

/-- Panic message of the expect on a missing script body. -/
def missingScriptMsg : String :=
  "Transaction script should be included in the row"

/-- commit_height.map(|height| height.parse::<u32>().unwrap()): absent
stays absent, present text is parsed and a parse failure panics. -/
def parseCommitHeight (ε : Type) :
    Option String → Except (RunError ε) (Option Nat)
  | none => Except.ok none
  | some s =>
    match parseU32 s with
    | none => Except.error (RunError.panicked unwrapMsg)
    | some n => Except.ok (some n)

variable {AId Dig ONotes TScript : Type}

/-- The transaction_script step of the per-row closure: when a script
root is recorded, map read_from_bytes over the optional script bytes,
transpose, question-mark the decode error, and expect a present body
(panicking when the bytes are absent); with no script root the script
is None. -/
def reconstructScript (c : Codecs AId Dig ONotes TScript)
    (script_root : Option String) (tx_script : Option (List Nat)) :
    Except (RunError StoreError) (Option TScript) :=
  if script_root.isSome then
    match tx_script with
    | none => Except.error (RunError.panicked missingScriptMsg)
    | some script =>
      match c.readTxScriptFromBytes script with
      | Except.error e => Except.error (RunError.err e)
      | Except.ok tx_script => Except.ok (some tx_script)
  else Except.ok none

/-- The per-row closure of get_transactions, translated in the source's
field order: account id, block number (unwrap panics on bad text),
commit height (absent stays absent, bad text panics), the three digests,
nullifiers, output notes, optional script (a present root with absent
bytes hits the expect and panics; bad bytes return the decode error),
and finally the derived status. -/
def reconstructRow (c : Codecs AId Dig ONotes TScript)
    (row : TransactionIdxdbObject) :
    Except (RunError StoreError) (TransactionRecord AId Dig ONotes TScript) :=
  match c.accountIdFromHex row.account_id with
  | Except.error e => Except.error (RunError.err e)
  | Except.ok native_account_id =>
  match parseU32 row.block_num with
  | none => Except.error (RunError.panicked unwrapMsg)
  | some block_num =>
  match parseCommitHeight StoreError row.commit_height with
  | Except.error e => Except.error e
  | Except.ok commit_height =>
  match c.digestTryFrom row.id with
  | Except.error e => Except.error (RunError.err e)
  | Except.ok id =>
  match c.digestTryFrom row.init_account_state with
  | Except.error e => Except.error (RunError.err e)
  | Except.ok init_account_state =>
  match c.digestTryFrom row.final_account_state with
  | Except.error e => Except.error (RunError.err e)
  | Except.ok final_account_state =>
  match c.readNullifiersFromBytes row.input_notes with
  | Except.error e => Except.error (RunError.err e)
  | Except.ok input_note_nullifiers =>
  match c.readOutputNotesFromBytes row.output_notes with
  | Except.error e => Except.error (RunError.err e)
  | Except.ok output_notes =>
  match reconstructScript c row.script_root row.tx_script with
  | Except.error e => Except.error e
  | Except.ok transaction_script =>
    Except.ok
      { id := id
        account_id := native_account_id
        init_account_state := init_account_state
        final_account_state := final_account_state
        input_note_nullifiers := input_note_nullifiers
        output_notes := output_notes
        transaction_script := transaction_script
        block_num := block_num
        transaction_status := transactionStatusOf commit_height row.discarded }

/-- The query-intent filter. Ids carries the caller's ids in the
caller's order; ExpiredBefore carries a block height. -/
inductive TransactionFilter (ι : Type) where
  | All : TransactionFilter ι
  | Uncomitted : TransactionFilter ι
  | Ids : List ι → TransactionFilter ι
  | ExpiredBefore : Nat → TransactionFilter ι

/-- The filter-to-token match from get_transactions: ids are rendered
with the injected ToString and comma-joined, the height is rendered in
decimal. -/
def encodeTransactionFilter {ι : Type} (toStr : ι → String) :
    TransactionFilter ι → String
  | TransactionFilter.All => ("All")
  | TransactionFilter.Uncomitted => ("Uncomitted")
  | TransactionFilter.Ids ids =>
      ("Ids:") ++ String.intercalate (",") (ids.map toStr)
  | TransactionFilter.ExpiredBefore block_number =>
      ("ExpiredPending:") ++ toString block_number

/-- An observable store operation: the single read scan of
get_transactions, and the four write families of apply_transaction. -/
inductive StoreOp where
  | scan : String → StoreOp
  | insertProvenTransactionData : StoreOp
  | updateAccount : StoreOp
  | applyNoteUpdatesTx : StoreOp
  | addNoteTag : Nat → StoreOp
deriving DecidableEq, Repr

/-- Whether an operation writes to one of the stores. -/
def isWriteOp : StoreOp → Bool
  | StoreOp.scan _ => false
  | _ => true

/-- The tag registrations contained in a trace, in trace order. -/
def tagOps (trace : List StoreOp) : List Nat :=
  trace.filterMap fun op =>
    match op with
    | StoreOp.addNoteTag t => some t
    | _ => none

/-- Reply of the IndexedDB bridge to one scan: the JS promise may
reject (jsFailure), deserialization of its value may fail
(deserFailure), or it yields the raw rows. -/
inductive ScanResult where
  | jsFailure : String → ScanResult
  | deserFailure : String → ScanResult
  | rows : List TransactionIdxdbObject → ScanResult

/-- The collect::<Result<Vec, _>> transform: one pass over the list
that stops at the first error. -/
def mapExcept {α β ε : Type} (f : α → Except ε β) :
    List α → Except ε (List β)
  | [] => Except.ok []
  | x :: xs =>
    match f x with
    | Except.error e => Except.error e
    | Except.ok y =>
      match mapExcept f xs with
      | Except.error e => Except.error e
      | Except.ok ys => Except.ok (y :: ys)

/-- get_transactions: encode the filter, scan once through the bridge
(wrapping a promise rejection or a deserialization failure into
StoreError::DatabaseError), then reconstruct every row fail-fast.
The first component records the store operations issued. -/
def getTransactions {ι : Type} (c : Codecs AId Dig ONotes TScript)
    (toStr : ι → String) (engine : String → ScanResult)
    (filter : TransactionFilter ι) :
    List StoreOp ×
      Except (RunError StoreError)
        (List (TransactionRecord AId Dig ONotes TScript)) :=
  let filter_as_str := encodeTransactionFilter toStr filter
  let trace := [StoreOp.scan filter_as_str]
  match engine filter_as_str with
  | ScanResult.jsFailure js_error =>
    (trace, Except.error (RunError.err (StoreError.DatabaseError
      (("failed to get transactions: ") ++ js_error))))
  | ScanResult.deserFailure err =>
    (trace, Except.error (RunError.err (StoreError.DatabaseError
      (("failed to deserialize ") ++ err))))
  | ScanResult.rows rs => (trace, mapExcept (reconstructRow c) rs)

/-- The update bundle consumed by apply_transaction: the executed
transaction, the updated account, the note updates (all opaque to this
module) and the newly discovered note tags. -/
structure TransactionStoreUpdate (Tx Acct Notes : Type) where
  executed_transaction : Tx
  updated_account : Acct
  note_updates : Notes
  new_tags : List Nat

/-- The store collaborators apply_transaction writes through, injected
as functions; update_account reports its own error kind, which the
source wraps into StoreError::DatabaseError. -/
structure ApplierEnv (Tx Acct Notes : Type) where
  insert_proven_transaction_data : Tx → Except StoreError Unit
  update_account : Acct → Except String Unit
  apply_note_updates_tx : Notes → Except StoreError Unit
  add_note_tag : Nat → Except StoreError Unit

/-- The tag loop of apply_transaction: register each tag in order,
stopping at the first failing registration. -/
def addTags (f : Nat → Except StoreError Unit) :
    List Nat → List StoreOp × Except StoreError Unit
  | [] => ([], Except.ok ())
  | t :: ts =>
    match f t with
    | Except.error e => ([StoreOp.addNoteTag t], Except.error e)
    | Except.ok _ =>
      let rest := addTags f ts
      (StoreOp.addNoteTag t :: rest.1, rest.2)

/-- apply_transaction: the four writes in source order, each awaited and
question-marked, so a failing step returns its error and no later step
runs. The first component records the operations issued. -/
def applyTransaction {Tx Acct Notes : Type} (env : ApplierEnv Tx Acct Notes)
    (tx_update : TransactionStoreUpdate Tx Acct Notes) :
    List StoreOp × Except StoreError Unit :=
  match env.insert_proven_transaction_data tx_update.executed_transaction with
  | Except.error e => ([StoreOp.insertProvenTransactionData], Except.error e)
  | Except.ok _ =>
  match env.update_account tx_update.updated_account with
  | Except.error err =>
    ([StoreOp.insertProvenTransactionData, StoreOp.updateAccount],
      Except.error (StoreError.DatabaseError
        (("failed to update account: ") ++ err)))
  | Except.ok _ =>
  match env.apply_note_updates_tx tx_update.note_updates with
  | Except.error e =>
    ([StoreOp.insertProvenTransactionData, StoreOp.updateAccount,
      StoreOp.applyNoteUpdatesTx], Except.error e)
  | Except.ok _ =>
    let tagRun := addTags env.add_note_tag tx_update.new_tags
    ([StoreOp.insertProvenTransactionData, StoreOp.updateAccount,
      StoreOp.applyNoteUpdatesTx] ++ tagRun.1, tagRun.2)

/-- Codecs whose external decoders always succeed, for concrete runs. -/
def trivCodecs : Codecs Nat Nat Nat Nat where
  accountIdFromHex := fun _ => Except.ok 0
  digestTryFrom := fun _ => Except.ok 0
  readNullifiersFromBytes := fun _ => Except.ok []
  readOutputNotesFromBytes := fun _ => Except.ok 0
  readTxScriptFromBytes := fun _ => Except.ok 0

/-- A well-formed committed row: block 100, commit height 105, not
discarded, no script. -/
def rowCommitted : TransactionIdxdbObject where
  account_id := ("0xab")
  id := ("d0")
  init_account_state := ("d1")
  final_account_state := ("d2")
  input_notes := []
  output_notes := []
  script_root := none
  tx_script := none
  block_num := ("100")
  commit_height := some ("105")
  discarded := false

/-- A well-formed pending row: no commit height, not discarded. -/
def rowPending : TransactionIdxdbObject :=
  { rowCommitted with commit_height := none }

/-- A corrupt row: script root recorded but script bytes absent. -/
def rowMissingScript : TransactionIdxdbObject :=
  { rowCommitted with script_root := some ("r0"), tx_script := none }

/-- A corrupt row: block number text that is not valid u32 decimal. -/
def rowBadBlockNum : TransactionIdxdbObject :=
  { rowCommitted with block_num := ("x") }

/-- The record rowCommitted reconstructs to under trivCodecs. -/
def recCommitted : TransactionRecord Nat Nat Nat Nat where
  id := 0
  account_id := 0
  init_account_state := 0
  final_account_state := 0
  input_note_nullifiers := []
  output_notes := 0
  transaction_script := none
  block_num := 100
  transaction_status := TransactionStatus.Committed 105

/-- The record rowPending reconstructs to under trivCodecs. -/
def recPending : TransactionRecord Nat Nat Nat Nat :=
  { recCommitted with transaction_status := TransactionStatus.Pending }

lemma reconstructRow_ok_inv {c : Codecs AId Dig ONotes TScript}
    {row : TransactionIdxdbObject}
    {rec : TransactionRecord AId Dig ONotes TScript}
    (h : reconstructRow c row = Except.ok rec) :
    ∃ aid bn ch idd ist fad nulls onotes osc,
      c.accountIdFromHex row.account_id = Except.ok aid ∧
      parseU32 row.block_num = some bn ∧
      parseCommitHeight StoreError row.commit_height = Except.ok ch ∧
      c.digestTryFrom row.id = Except.ok idd ∧
      c.digestTryFrom row.init_account_state = Except.ok ist ∧
      c.digestTryFrom row.final_account_state = Except.ok fad ∧
      c.readNullifiersFromBytes row.input_notes = Except.ok nulls ∧
      c.readOutputNotesFromBytes row.output_notes = Except.ok onotes ∧
      reconstructScript c row.script_root row.tx_script = Except.ok osc ∧
      rec = { id := idd, account_id := aid, init_account_state := ist,
              final_account_state := fad, input_note_nullifiers := nulls,
              output_notes := onotes, transaction_script := osc,
              block_num := bn,
              transaction_status :=
                transactionStatusOf ch row.discarded } := by
  cases h1 : c.accountIdFromHex row.account_id with
  | error e => simp [reconstructRow, h1] at h
  | ok aid =>
  simp only [reconstructRow, h1] at h
  cases h2 : parseU32 row.block_num with
  | none => simp [h2] at h
  | some bn =>
  simp only [h2] at h
  cases h3 : parseCommitHeight StoreError row.commit_height with
  | error e => simp [h3] at h
  | ok ch =>
  simp only [h3] at h
  cases h4 : c.digestTryFrom row.id with
  | error e => simp [h4] at h
  | ok idd =>
  simp only [h4] at h
  cases h5 : c.digestTryFrom row.init_account_state with
  | error e => simp [h5] at h
  | ok ist =>
  simp only [h5] at h
  cases h6 : c.digestTryFrom row.final_account_state with
  | error e => simp [h6] at h
  | ok fad =>
  simp only [h6] at h
  cases h7 : c.readNullifiersFromBytes row.input_notes with
  | error e => simp [h7] at h
  | ok nulls =>
  simp only [h7] at h
  cases h8 : c.readOutputNotesFromBytes row.output_notes with
  | error e => simp [h8] at h
  | ok onotes =>
  simp only [h8] at h
  cases h9 : reconstructScript c row.script_root row.tx_script with
  | error e => simp [h9] at h
  | ok osc =>
  simp only [h9, Except.ok.injEq] at h
  exact ⟨aid, bn, ch, idd, ist, fad, nulls, onotes, osc,
    rfl, rfl, rfl, rfl, rfl, rfl, rfl, rfl, rfl, h.symm⟩

lemma transactionStatusOf_discarded (ch : Option Nat) :
    transactionStatusOf ch true = TransactionStatus.Discarded := by
  cases ch <;> rfl

lemma transactionStatusOf_committed (n : Nat) :
    transactionStatusOf (some n) false = TransactionStatus.Committed n := rfl

lemma transactionStatusOf_pending :
    transactionStatusOf none false = TransactionStatus.Pending := rfl

/-- C1: for every persisted row that reconstructs successfully, the
derived transaction_status follows the priority rule: a set discarded
flag yields Discarded regardless of any recorded commit height;
otherwise a recorded commit height h yields Committed h; otherwise the
status is Pending. -/
theorem c1_status_priority (c : Codecs AId Dig ONotes TScript)
    (row : TransactionIdxdbObject)
    (rec : TransactionRecord AId Dig ONotes TScript)
    (h : reconstructRow c row = Except.ok rec) :
    (row.discarded = true →
      rec.transaction_status = TransactionStatus.Discarded) ∧
    (row.discarded = false → row.commit_height = none →
      rec.transaction_status = TransactionStatus.Pending) ∧
    (∀ s n, row.discarded = false → row.commit_height = some s →
      parseU32 s = some n →
      rec.transaction_status = TransactionStatus.Committed n) := by
  obtain ⟨aid, bn, ch, idd, ist, fad, nulls, onotes, osc,
    h1, h2, h3, h4, h5, h6, h7, h8, h9, hrec⟩ := reconstructRow_ok_inv h
  subst hrec
  refine ⟨fun hd => ?_, fun hd hc => ?_, fun s n hd hc hp => ?_⟩
  · simp only [hd, transactionStatusOf_discarded]
  · rw [hc] at h3
    simp only [parseCommitHeight, Except.ok.injEq] at h3
    simp only [hd, ← h3, transactionStatusOf_pending]
  · rw [hc] at h3
    simp only [parseCommitHeight, hp, Except.ok.injEq] at h3
    simp only [hd, ← h3, transactionStatusOf_committed]

/-- C1 witness: the committed example row (commit height 105, not
discarded) gets status Committed 105, and the pending example row gets
status Pending. -/
theorem c1_status_priority_witness :
    recCommitted.transaction_status = TransactionStatus.Committed 105 ∧
    recPending.transaction_status = TransactionStatus.Pending :=
  ⟨(c1_status_priority trivCodecs rowCommitted recCommitted rfl).2.2
      ("105") 105 rfl rfl rfl,
    (c1_status_priority trivCodecs rowPending recPending rfl).2.1 rfl rfl⟩

/-- C2: the filter encoder produces exactly the documented tokens: All
encodes to the literal All-token, Uncommitted to the (deliberately
misspelled) Uncomitted token, Ids to the Ids prefix followed by the
comma-joined id texts in the caller's order, ExpiredBefore to the
ExpiredPending prefix followed by the decimal text of the height; and
the encoding is deterministic. -/
theorem c2_filter_encoding {ι : Type} (toStr : ι → String) :
    encodeTransactionFilter toStr TransactionFilter.All = ("All") ∧
    encodeTransactionFilter toStr TransactionFilter.Uncomitted =
      ("Uncomitted") ∧
    (∀ ids : List ι, encodeTransactionFilter toStr (TransactionFilter.Ids ids)
      = ("Ids:") ++ String.intercalate (",") (ids.map toStr)) ∧
    (∀ h : Nat,
      encodeTransactionFilter toStr (TransactionFilter.ExpiredBefore h)
        = ("ExpiredPending:") ++ Nat.repr h) ∧
    (∀ f g : TransactionFilter ι, f = g →
      encodeTransactionFilter toStr f = encodeTransactionFilter toStr g) :=
  ⟨rfl, rfl, fun _ => rfl, fun _ => rfl, fun _ _ hfg => hfg ▸ rfl⟩

/-- C2 witness: two concrete ids encode to the Ids token with both ids
comma-joined in order, and determinism instantiated at that filter. -/
theorem c2_filter_encoding_witness :
    encodeTransactionFilter Nat.repr (TransactionFilter.Ids [1, 2]) =
      encodeTransactionFilter Nat.repr (TransactionFilter.Ids [1, 2]) ∧
    encodeTransactionFilter Nat.repr (TransactionFilter.Ids [1, 2]) =
      ("Ids:1,2") := by
  refine ⟨(c2_filter_encoding Nat.repr).2.2.2.2 _ _ rfl, ?_⟩
  rw [(c2_filter_encoding Nat.repr).2.2.1 [1, 2]]
  decide

/-- C9: get_transactions is read-only: for every filter and every
bridge reply, its operation trace is exactly one scan carrying the
encoded filter token, and it contains no write operation on any store,
whether the call succeeds or fails. -/
theorem c9_read_only {ι : Type} (c : Codecs AId Dig ONotes TScript)
    (toStr : ι → String) (engine : String → ScanResult)
    (filter : TransactionFilter ι) :
    (getTransactions c toStr engine filter).1 =
      [StoreOp.scan (encodeTransactionFilter toStr filter)] ∧
    List.filter isWriteOp (getTransactions c toStr engine filter).1 = [] := by
  cases h : engine (encodeTransactionFilter toStr filter) <;>
    simp [getTransactions, h, isWriteOp]

/-- C10: the empty id set encodes to exactly the bare Ids prefix with
an empty joined list, not a distinct token or an error. -/
theorem c10_empty_ids {ι : Type} (toStr : ι → String) :
    encodeTransactionFilter toStr (TransactionFilter.Ids []) = ("Ids:") := by
  rfl

lemma reconstructScript_missing {c : Codecs AId Dig ONotes TScript}
    {root : Option String} {txs : Option (List Nat)}
    (hr : root.isSome = true) (htx : txs = none) :
    reconstructScript c root txs =
      Except.error (RunError.panicked missingScriptMsg) := by
  subst htx
  simp [reconstructScript, hr]

lemma reconstructScript_root_none {c : Codecs AId Dig ONotes TScript}
    {root : Option String} {txs : Option (List Nat)} {osc : Option TScript}
    (hr : root = none) (h : reconstructScript c root txs = Except.ok osc) :
    osc = none := by
  subst hr
  simp [reconstructScript] at h
  exact h.symm

lemma reconstructScript_root_some {c : Codecs AId Dig ONotes TScript}
    {root : Option String} {txs : Option (List Nat)} {osc : Option TScript}
    (hr : root.isSome = true) (h : reconstructScript c root txs = Except.ok osc) :
    osc.isSome = true := by
  cases txs with
  | none => simp [reconstructScript, hr] at h
  | some s =>
    cases hcs : c.readTxScriptFromBytes s with
    | error e => simp [reconstructScript, hr, hcs] at h
    | ok y =>
      simp [reconstructScript, hr, hcs] at h
      simp [← h]

/-- C3: a row whose script root is present but whose script bytes are
absent never reconstructs successfully (the invariant violation is
surfaced as the expect panic); a row without a script root reconstructs
with transaction_script = none; and a successful reconstruction of a
row with a script root always carries a script. -/
theorem c3_script_invariant (c : Codecs AId Dig ONotes TScript)
    (row : TransactionIdxdbObject) :
    (row.script_root.isSome = true → row.tx_script = none →
      ∀ rec : TransactionRecord AId Dig ONotes TScript,
        reconstructRow c row ≠ Except.ok rec) ∧
    (row.script_root = none →
      ∀ rec : TransactionRecord AId Dig ONotes TScript,
        reconstructRow c row = Except.ok rec →
        rec.transaction_script = none) ∧
    (row.script_root.isSome = true →
      ∀ rec : TransactionRecord AId Dig ONotes TScript,
        reconstructRow c row = Except.ok rec →
        rec.transaction_script.isSome = true) := by
  refine ⟨fun hr htx rec h => ?_, fun hr rec h => ?_, fun hr rec h => ?_⟩
  · obtain ⟨aid, bn, ch, idd, ist, fad, nulls, onotes, osc,
      h1, h2, h3, h4, h5, h6, h7, h8, h9, hrec⟩ := reconstructRow_ok_inv h
    rw [reconstructScript_missing hr htx] at h9
    exact absurd h9 (by simp)
  · obtain ⟨aid, bn, ch, idd, ist, fad, nulls, onotes, osc,
      h1, h2, h3, h4, h5, h6, h7, h8, h9, hrec⟩ := reconstructRow_ok_inv h
    subst hrec
    simpa using reconstructScript_root_none hr h9
  · obtain ⟨aid, bn, ch, idd, ist, fad, nulls, onotes, osc,
      h1, h2, h3, h4, h5, h6, h7, h8, h9, hrec⟩ := reconstructRow_ok_inv h
    subst hrec
    simpa using reconstructScript_root_some hr h9

/-- C3 witness: the corrupt row with a script root and no script bytes
does not reconstruct to the committed record, and the committed row
(no script root) reconstructs with no transaction script. -/
theorem c3_script_invariant_witness :
    (reconstructRow trivCodecs rowMissingScript ≠ Except.ok recCommitted) ∧
    recCommitted.transaction_script = none :=
  ⟨(c3_script_invariant trivCodecs rowMissingScript).1 rfl rfl recCommitted,
    (c3_script_invariant trivCodecs rowCommitted).2.1 rfl recCommitted rfl⟩

lemma mapExcept_error_first {α β ε : Type} (f : α → Except ε β)
    (pre : List α) (x : α) (post : List α) (e : ε)
    (hpre : ∀ p ∈ pre, ∃ y, f p = Except.ok y)
    (hx : f x = Except.error e) :
    mapExcept f (pre ++ x :: post) = Except.error e := by
  induction pre with
  | nil => simp [mapExcept, hx]
  | cons a as ih =>
    obtain ⟨y, hy⟩ := hpre a (List.mem_cons_self a as)
    have hrest := ih (fun p hp => hpre p (List.mem_cons_of_mem a hp))
    simp [mapExcept, hy, hrest]

lemma mapExcept_ok_spec {α β ε : Type} (f : α → Except ε β) :
    ∀ (xs : List α) (ys : List β), mapExcept f xs = Except.ok ys →
      ys.length = xs.length ∧
      ∀ i (h1 : i < xs.length) (h2 : i < ys.length),
        f (xs.get ⟨i, h1⟩) = Except.ok (ys.get ⟨i, h2⟩) := by
  intro xs
  induction xs with
  | nil =>
    intro ys h
    simp only [mapExcept, Except.ok.injEq] at h
    subst h
    exact ⟨rfl, fun i h1 h2 => absurd h1 (by simp)⟩
  | cons x xs ih =>
    intro ys h
    cases hfx : f x with
    | error e => simp [mapExcept, hfx] at h
    | ok y =>
      cases hrest : mapExcept f xs with
      | error e => simp [mapExcept, hfx, hrest] at h
      | ok ys2 =>
        simp only [mapExcept, hfx, hrest, Except.ok.injEq] at h
        subst h
        obtain ⟨hlen, hget⟩ := ih ys2 hrest
        refine ⟨by simp [hlen], ?_⟩
        intro i h1 h2
        cases i with
        | zero => simpa using hfx
        | succ n =>
          have hn := hget n (by simpa using h1) (by simpa using h2)
          simpa using hn

/-- C4: reconstruction of the batch is fail-fast: if the scan returns a
sequence with a malformed row after any prefix of well-formed rows,
get_transactions returns that row's error for the whole batch rather
than a partial list. -/
theorem c4_fail_fast {ι : Type} (c : Codecs AId Dig ONotes TScript)
    (toStr : ι → String) (engine : String → ScanResult)
    (filter : TransactionFilter ι) (pre : List TransactionIdxdbObject)
    (bad : TransactionIdxdbObject) (post : List TransactionIdxdbObject)
    (e : RunError StoreError)
    (hscan : engine (encodeTransactionFilter toStr filter) =
      ScanResult.rows (pre ++ bad :: post))
    (hpre : ∀ p ∈ pre, ∃ r, reconstructRow c p = Except.ok r)
    (hbad : reconstructRow c bad = Except.error e) :
    (getTransactions c toStr engine filter).2 = Except.error e := by
  simp only [getTransactions, hscan]
  exact mapExcept_error_first (reconstructRow c) pre bad post e hpre hbad

/-- C4 witness: a batch holding only the corrupt missing-script row
makes get_transactions fail with that row's error. -/
theorem c4_fail_fast_witness :
    (getTransactions trivCodecs Nat.repr
      (fun _ => ScanResult.rows [rowMissingScript])
      TransactionFilter.All).2 =
      Except.error (RunError.panicked missingScriptMsg) :=
  c4_fail_fast trivCodecs Nat.repr
    (fun _ => ScanResult.rows [rowMissingScript]) TransactionFilter.All
    [] rowMissingScript [] (RunError.panicked missingScriptMsg)
    rfl (by simp) rfl

/-- C8: when get_transactions succeeds, it returns exactly one
reconstructed record per scanned row, in the scan's order, each record
being the reconstruction of the row at the same position. -/
theorem c8_one_record_per_row {ι : Type} (c : Codecs AId Dig ONotes TScript)
    (toStr : ι → String) (engine : String → ScanResult)
    (filter : TransactionFilter ι) (rows : List TransactionIdxdbObject)
    (recs : List (TransactionRecord AId Dig ONotes TScript))
    (hscan : engine (encodeTransactionFilter toStr filter) =
      ScanResult.rows rows)
    (hok : (getTransactions c toStr engine filter).2 = Except.ok recs) :
    recs.length = rows.length ∧
    ∀ i (h1 : i < rows.length) (h2 : i < recs.length),
      reconstructRow c (rows.get ⟨i, h1⟩) = Except.ok (recs.get ⟨i, h2⟩) := by
  simp only [getTransactions, hscan] at hok
  exact mapExcept_ok_spec (reconstructRow c) rows recs hok

/-- C8 witness: a two-row scan yields the two matching records in scan
order, the second row reconstructing to the second record. -/
theorem c8_one_record_per_row_witness :
    ([recCommitted, recPending].length = [rowCommitted, rowPending].length) ∧
    reconstructRow trivCodecs rowPending = Except.ok recPending := by
  have h := c8_one_record_per_row trivCodecs Nat.repr
    (fun _ => ScanResult.rows [rowCommitted, rowPending])
    TransactionFilter.All [rowCommitted, rowPending]
    [recCommitted, recPending] rfl rfl
  refine ⟨h.1, ?_⟩
  have hn := h.2 1 (by decide) (by decide)
  simpa using hn

lemma addTags_all_ok (f : Nat → Except StoreError Unit) (ts : List Nat)
    (h : ∀ t ∈ ts, f t = Except.ok ()) :
    addTags f ts = (ts.map StoreOp.addNoteTag, Except.ok ()) := by
  induction ts with
  | nil => rfl
  | cons t ts ih =>
    have ht := h t (List.mem_cons_self t ts)
    simp [addTags, ht, ih (fun x hx => h x (List.mem_cons_of_mem t hx))]

lemma addTags_first_error (f : Nat → Except StoreError Unit)
    (pre : List Nat) (t : Nat) (post : List Nat) (e : StoreError)
    (hpre : ∀ x ∈ pre, f x = Except.ok ()) (ht : f t = Except.error e) :
    addTags f (pre ++ t :: post) =
      ((pre ++ [t]).map StoreOp.addNoteTag, Except.error e) := by
  induction pre with
  | nil => simp [addTags, ht]
  | cons a as ih =>
    have ha := hpre a (List.mem_cons_self a as)
    simp [addTags, ha, ih (fun x hx => hpre x (List.mem_cons_of_mem a hx))]

/-- C5: apply_transaction issues its writes in the fixed order
transaction data, account snapshot, note updates, tag registrations; a
failing step returns that step's error (the account step wrapped into
DatabaseError) and no later write is ever issued, with no rollback of
the earlier writes. -/
theorem c5_sequenced_writes {Tx Acct Notes : Type}
    (env : ApplierEnv Tx Acct Notes)
    (u : TransactionStoreUpdate Tx Acct Notes) :
    (∀ e, env.insert_proven_transaction_data u.executed_transaction =
        Except.error e →
      applyTransaction env u =
        ([StoreOp.insertProvenTransactionData], Except.error e)) ∧
    (∀ e, env.insert_proven_transaction_data u.executed_transaction =
        Except.ok () →
      env.update_account u.updated_account = Except.error e →
      applyTransaction env u =
        ([StoreOp.insertProvenTransactionData, StoreOp.updateAccount],
          Except.error (StoreError.DatabaseError
            (("failed to update account: ") ++ e)))) ∧
    (∀ e, env.insert_proven_transaction_data u.executed_transaction =
        Except.ok () →
      env.update_account u.updated_account = Except.ok () →
      env.apply_note_updates_tx u.note_updates = Except.error e →
      applyTransaction env u =
        ([StoreOp.insertProvenTransactionData, StoreOp.updateAccount,
          StoreOp.applyNoteUpdatesTx], Except.error e)) ∧
    (∀ pre t post e,
      env.insert_proven_transaction_data u.executed_transaction =
        Except.ok () →
      env.update_account u.updated_account = Except.ok () →
      env.apply_note_updates_tx u.note_updates = Except.ok () →
      u.new_tags = pre ++ t :: post →
      (∀ x ∈ pre, env.add_note_tag x = Except.ok ()) →
      env.add_note_tag t = Except.error e →
      applyTransaction env u =
        ([StoreOp.insertProvenTransactionData, StoreOp.updateAccount,
          StoreOp.applyNoteUpdatesTx] ++ (pre ++ [t]).map StoreOp.addNoteTag,
          Except.error e)) := by
  refine ⟨fun e h1 => ?_, fun e h1 h2 => ?_, fun e h1 h2 h3 => ?_,
    fun pre t post e h1 h2 h3 htags hpre ht => ?_⟩
  · simp [applyTransaction, h1]
  · simp [applyTransaction, h1, h2]
  · simp [applyTransaction, h1, h2, h3]
  · simp [applyTransaction, h1, h2, h3, htags,
      addTags_first_error env.add_note_tag pre t post e hpre ht]

/-- A sample update bundle with two new tags. -/
def updSample : TransactionStoreUpdate Nat Nat Nat where
  executed_transaction := 0
  updated_account := 0
  note_updates := 0
  new_tags := [5, 7]

/-- The sample bundle with no new tags. -/
def updNoTags : TransactionStoreUpdate Nat Nat Nat :=
  { updSample with new_tags := [] }

/-- Collaborators that all succeed. -/
def envAllOk : ApplierEnv Nat Nat Nat where
  insert_proven_transaction_data := fun _ => Except.ok ()
  update_account := fun _ => Except.ok ()
  apply_note_updates_tx := fun _ => Except.ok ()
  add_note_tag := fun _ => Except.ok ()

/-- Collaborators whose transaction-data write fails. -/
def envInsertFails : ApplierEnv Nat Nat Nat :=
  { envAllOk with insert_proven_transaction_data :=
      fun _ => Except.error (StoreError.DatabaseError ("io")) }

/-- C5 witness: when the first write fails, apply_transaction performs
only that write and returns its error. -/
theorem c5_sequenced_writes_witness :
    applyTransaction envInsertFails updSample =
      ([StoreOp.insertProvenTransactionData],
        Except.error (StoreError.DatabaseError ("io"))) :=
  (c5_sequenced_writes envInsertFails updSample).1
    (StoreError.DatabaseError ("io")) rfl

/-- C6: with an empty new-tags list apply_transaction registers zero
tags, and on the success path performs exactly the first three
persistence steps; in general, when every step succeeds it registers
exactly one tag per entry of the new-tags list, in list order. -/
theorem c6_one_tag_per_entry {Tx Acct Notes : Type}
    (env : ApplierEnv Tx Acct Notes)
    (u : TransactionStoreUpdate Tx Acct Notes) :
    (u.new_tags = [] → tagOps (applyTransaction env u).1 = []) ∧
    (u.new_tags = [] →
      env.insert_proven_transaction_data u.executed_transaction =
        Except.ok () →
      env.update_account u.updated_account = Except.ok () →
      env.apply_note_updates_tx u.note_updates = Except.ok () →
      applyTransaction env u =
        ([StoreOp.insertProvenTransactionData, StoreOp.updateAccount,
          StoreOp.applyNoteUpdatesTx], Except.ok ())) ∧
    (env.insert_proven_transaction_data u.executed_transaction =
        Except.ok () →
      env.update_account u.updated_account = Except.ok () →
      env.apply_note_updates_tx u.note_updates = Except.ok () →
      (∀ t ∈ u.new_tags, env.add_note_tag t = Except.ok ()) →
      applyTransaction env u =
        ([StoreOp.insertProvenTransactionData, StoreOp.updateAccount,
          StoreOp.applyNoteUpdatesTx] ++ u.new_tags.map StoreOp.addNoteTag,
          Except.ok ()) ∧
      tagOps (applyTransaction env u).1 = u.new_tags) := by
  refine ⟨fun htags => ?_, fun htags h1 h2 h3 => ?_, fun h1 h2 h3 hall => ?_⟩
  · cases h1 : env.insert_proven_transaction_data u.executed_transaction with
    | error e => simp [applyTransaction, h1, tagOps]
    | ok v =>
      cases v
      cases h2 : env.update_account u.updated_account with
      | error e => simp [applyTransaction, h1, h2, tagOps]
      | ok v2 =>
        cases v2
        cases h3 : env.apply_note_updates_tx u.note_updates with
        | error e => simp [applyTransaction, h1, h2, h3, tagOps]
        | ok v3 =>
          cases v3
          simp [applyTransaction, h1, h2, h3, htags, addTags, tagOps]
  · simp [applyTransaction, h1, h2, h3, htags, addTags]
  · have hrun := addTags_all_ok env.add_note_tag u.new_tags hall
    constructor
    · simp [applyTransaction, h1, h2, h3, hrun]
    · simp [applyTransaction, h1, h2, h3, hrun, tagOps,
        List.filterMap_append, List.filterMap_map]
      generalize u.new_tags = ts
      induction ts with
      | nil => rfl
      | cons a as ih => simpa using ih

/-- C6 witness: with all collaborators succeeding, the empty-tag bundle
performs exactly the three persistence steps, and the two-tag bundle
registers exactly its two tags in order. -/
theorem c6_one_tag_per_entry_witness :
    applyTransaction envAllOk updNoTags =
      ([StoreOp.insertProvenTransactionData, StoreOp.updateAccount,
        StoreOp.applyNoteUpdatesTx], Except.ok ()) ∧
    tagOps (applyTransaction envAllOk updSample).1 = [5, 7] := by
  refine ⟨(c6_one_tag_per_entry envAllOk updNoTags).2.1 rfl rfl rfl rfl, ?_⟩
  have h := ((c6_one_tag_per_entry envAllOk updSample).2.2 rfl rfl rfl
    (fun t _ => rfl)).2
  simpa using h

/-- A corrupt row: commit-height text that is not valid u32 decimal. -/
def rowBadCommit : TransactionIdxdbObject :=
  { rowCommitted with commit_height := some ("x") }

/-- C7 counterexample: malformed block-number text makes reconstruction
panic (Result::unwrap on the failed parse) instead of returning a
wrapped store error, and likewise for malformed commit-height text, so
reconstruction is not total as a Result. -/
theorem c7_counterexample :
    reconstructRow trivCodecs rowBadBlockNum =
      Except.error (RunError.panicked unwrapMsg) ∧
    reconstructRow trivCodecs rowBadCommit =
      Except.error (RunError.panicked unwrapMsg) :=
  ⟨rfl, rfl⟩

/-- C7 amended: every failure of the external decoders — account id,
each of the three digests, nullifier bytes, output-note bytes, script
bytes — is returned as a wrapped store error, which get_transactions
then returns for the batch (no error is swallowed), and an absent
commit-height field leaves the parsed value absent rather than failing;
but block-number or commit-height text that is not valid u32 decimal
causes a panic (Result::unwrap), not a returned store error. -/
theorem c7_error_propagation (c : Codecs AId Dig ONotes TScript)
    (row : TransactionIdxdbObject) :
    (∀ e, c.accountIdFromHex row.account_id = Except.error e →
      reconstructRow c row = Except.error (RunError.err e)) ∧
    (∀ aid, c.accountIdFromHex row.account_id = Except.ok aid →
      parseU32 row.block_num = none →
      reconstructRow c row = Except.error (RunError.panicked unwrapMsg)) ∧
    (∀ aid bn s,
      c.accountIdFromHex row.account_id = Except.ok aid →
      parseU32 row.block_num = some bn →
      row.commit_height = some s →
      parseU32 s = none →
      reconstructRow c row = Except.error (RunError.panicked unwrapMsg)) ∧
    parseCommitHeight StoreError none = Except.ok none ∧
    (∀ aid bn ch e,
      c.accountIdFromHex row.account_id = Except.ok aid →
      parseU32 row.block_num = some bn →
      parseCommitHeight StoreError row.commit_height = Except.ok ch →
      c.digestTryFrom row.id = Except.error e →
      reconstructRow c row = Except.error (RunError.err e)) ∧
    (∀ aid bn ch idd e,
      c.accountIdFromHex row.account_id = Except.ok aid →
      parseU32 row.block_num = some bn →
      parseCommitHeight StoreError row.commit_height = Except.ok ch →
      c.digestTryFrom row.id = Except.ok idd →
      c.digestTryFrom row.init_account_state = Except.error e →
      reconstructRow c row = Except.error (RunError.err e)) ∧
    (∀ aid bn ch idd ist e,
      c.accountIdFromHex row.account_id = Except.ok aid →
      parseU32 row.block_num = some bn →
      parseCommitHeight StoreError row.commit_height = Except.ok ch →
      c.digestTryFrom row.id = Except.ok idd →
      c.digestTryFrom row.init_account_state = Except.ok ist →
      c.digestTryFrom row.final_account_state = Except.error e →
      reconstructRow c row = Except.error (RunError.err e)) ∧
    (∀ aid bn ch idd ist fad e,
      c.accountIdFromHex row.account_id = Except.ok aid →
      parseU32 row.block_num = some bn →
      parseCommitHeight StoreError row.commit_height = Except.ok ch →
      c.digestTryFrom row.id = Except.ok idd →
      c.digestTryFrom row.init_account_state = Except.ok ist →
      c.digestTryFrom row.final_account_state = Except.ok fad →
      c.readNullifiersFromBytes row.input_notes = Except.error e →
      reconstructRow c row = Except.error (RunError.err e)) ∧
    (∀ aid bn ch idd ist fad nulls e,
      c.accountIdFromHex row.account_id = Except.ok aid →
      parseU32 row.block_num = some bn →
      parseCommitHeight StoreError row.commit_height = Except.ok ch →
      c.digestTryFrom row.id = Except.ok idd →
      c.digestTryFrom row.init_account_state = Except.ok ist →
      c.digestTryFrom row.final_account_state = Except.ok fad →
      c.readNullifiersFromBytes row.input_notes = Except.ok nulls →
      c.readOutputNotesFromBytes row.output_notes = Except.error e →
      reconstructRow c row = Except.error (RunError.err e)) ∧
    (∀ aid bn ch idd ist fad nulls onotes bytes e,
      c.accountIdFromHex row.account_id = Except.ok aid →
      parseU32 row.block_num = some bn →
      parseCommitHeight StoreError row.commit_height = Except.ok ch →
      c.digestTryFrom row.id = Except.ok idd →
      c.digestTryFrom row.init_account_state = Except.ok ist →
      c.digestTryFrom row.final_account_state = Except.ok fad →
      c.readNullifiersFromBytes row.input_notes = Except.ok nulls →
      c.readOutputNotesFromBytes row.output_notes = Except.ok onotes →
      row.script_root.isSome = true →
      row.tx_script = some bytes →
      c.readTxScriptFromBytes bytes = Except.error e →
      reconstructRow c row = Except.error (RunError.err e)) ∧
    (∀ (ι : Type) (toStr : ι → String) (engine : String → ScanResult)
      (filter : TransactionFilter ι)
      (pre post : List TransactionIdxdbObject)
      (bad : TransactionIdxdbObject) (e : RunError StoreError),
      engine (encodeTransactionFilter toStr filter) =
        ScanResult.rows (pre ++ bad :: post) →
      (∀ p ∈ pre, ∃ r, reconstructRow c p = Except.ok r) →
      reconstructRow c bad = Except.error e →
      (getTransactions c toStr engine filter).2 = Except.error e) := by
  refine ⟨fun e h1 => ?_,
    fun aid h1 h2 => ?_,
    fun aid bn s h1 h2 hc hp => ?_,
    rfl,
    fun aid bn ch e h1 h2 h3 h4 => ?_,
    fun aid bn ch idd e h1 h2 h3 h4 h5 => ?_,
    fun aid bn ch idd ist e h1 h2 h3 h4 h5 h6 => ?_,
    fun aid bn ch idd ist fad e h1 h2 h3 h4 h5 h6 h7 => ?_,
    fun aid bn ch idd ist fad nulls e h1 h2 h3 h4 h5 h6 h7 h8 => ?_,
    fun aid bn ch idd ist fad nulls onotes bytes e
      h1 h2 h3 h4 h5 h6 h7 h8 hr htx hsc => ?_,
    fun ι toStr engine filter pre post bad e hscan hpre hbad => ?_⟩
  · simp [reconstructRow, h1]
  · simp [reconstructRow, h1, h2]
  · simp [reconstructRow, h1, h2, hc, parseCommitHeight, hp]
  · simp [reconstructRow, h1, h2, h3, h4]
  · simp [reconstructRow, h1, h2, h3, h4, h5]
  · simp [reconstructRow, h1, h2, h3, h4, h5, h6]
  · simp [reconstructRow, h1, h2, h3, h4, h5, h6, h7]
  · simp [reconstructRow, h1, h2, h3, h4, h5, h6, h7, h8]
  · simp [reconstructRow, h1, h2, h3, h4, h5, h6, h7, h8,
      reconstructScript, hr, htx, hsc]
  · simp only [getTransactions, hscan]
    exact mapExcept_error_first (reconstructRow c) pre bad post e hpre hbad

/-- A codec set whose account-id decoder fails. -/
def codecBadAccount : Codecs Nat Nat Nat Nat :=
  { trivCodecs with accountIdFromHex :=
      fun _ => Except.error (StoreError.AccountIdError ("bad")) }

/-- A codec set whose digest decoder fails exactly on the given text,
singling out one of the three digest fields of the sample row. -/
def codecFailDigestOn (s0 : String) : Codecs Nat Nat Nat Nat :=
  { trivCodecs with digestTryFrom := fun s =>
      if s = s0 then Except.error (StoreError.ConversionError ("bad digest"))
      else Except.ok 0 }

/-- A codec set whose nullifier-list decoder fails. -/
def codecBadNullifiers : Codecs Nat Nat Nat Nat :=
  { trivCodecs with readNullifiersFromBytes :=
      fun _ => Except.error (StoreError.DeserializationError ("bad nullifiers")) }

/-- A codec set whose output-notes decoder fails. -/
def codecBadOutputNotes : Codecs Nat Nat Nat Nat :=
  { trivCodecs with readOutputNotesFromBytes :=
      fun _ => Except.error (StoreError.DeserializationError ("bad notes")) }

/-- A codec set whose script decoder fails. -/
def codecBadScriptBytes : Codecs Nat Nat Nat Nat :=
  { trivCodecs with readTxScriptFromBytes :=
      fun _ => Except.error (StoreError.DeserializationError ("bad script")) }

/-- A row with a recorded script root and present script bytes. -/
def rowWithScript : TransactionIdxdbObject :=
  { rowCommitted with script_root := some ("r0"), tx_script := some [1] }

/-- C7 amended witness: each decoder failure — account id, id digest,
init-state digest, final-state digest, nullifier bytes, output-note
bytes, script bytes — surfaces as the wrapped store error on the sample
row; the malformed commit-height row surfaces as the unwrap panic; and
a batch holding that row makes get_transactions return that error. -/
theorem c7_error_propagation_witness :
    reconstructRow codecBadAccount rowCommitted =
      Except.error (RunError.err (StoreError.AccountIdError ("bad"))) ∧
    reconstructRow (codecFailDigestOn ("d0")) rowCommitted =
      Except.error (RunError.err (StoreError.ConversionError ("bad digest"))) ∧
    reconstructRow (codecFailDigestOn ("d1")) rowCommitted =
      Except.error (RunError.err (StoreError.ConversionError ("bad digest"))) ∧
    reconstructRow (codecFailDigestOn ("d2")) rowCommitted =
      Except.error (RunError.err (StoreError.ConversionError ("bad digest"))) ∧
    reconstructRow codecBadNullifiers rowCommitted =
      Except.error
        (RunError.err (StoreError.DeserializationError ("bad nullifiers"))) ∧
    reconstructRow codecBadOutputNotes rowCommitted =
      Except.error
        (RunError.err (StoreError.DeserializationError ("bad notes"))) ∧
    reconstructRow codecBadScriptBytes rowWithScript =
      Except.error
        (RunError.err (StoreError.DeserializationError ("bad script"))) ∧
    reconstructRow trivCodecs rowBadCommit =
      Except.error (RunError.panicked unwrapMsg) ∧
    (getTransactions trivCodecs Nat.repr
        (fun _ => ScanResult.rows [rowBadCommit]) TransactionFilter.All).2 =
      Except.error (RunError.panicked unwrapMsg) := by
  obtain ⟨a1, a2, a3, a4, a5, a6, a7, a8, a9, a10, a11⟩ :=
    c7_error_propagation codecBadAccount rowCommitted
  obtain ⟨b1, b2, b3, b4, b5, b6, b7, b8, b9, b10, b11⟩ :=
    c7_error_propagation (codecFailDigestOn ("d0")) rowCommitted
  obtain ⟨d1, d2, d3, d4, d5, d6, d7, d8, d9, d10, d11⟩ :=
    c7_error_propagation (codecFailDigestOn ("d1")) rowCommitted
  obtain ⟨f1, f2, f3, f4, f5, f6, f7, f8, f9, f10, f11⟩ :=
    c7_error_propagation (codecFailDigestOn ("d2")) rowCommitted
  obtain ⟨n1, n2, n3, n4, n5, n6, n7, n8, n9, n10, n11⟩ :=
    c7_error_propagation codecBadNullifiers rowCommitted
  obtain ⟨o1, o2, o3, o4, o5, o6, o7, o8, o9, o10, o11⟩ :=
    c7_error_propagation codecBadOutputNotes rowCommitted
  obtain ⟨s1, s2, s3, s4, s5, s6, s7, s8, s9, s10, s11⟩ :=
    c7_error_propagation codecBadScriptBytes rowWithScript
  obtain ⟨t1, t2, t3, t4, t5, t6, t7, t8, t9, t10, t11⟩ :=
    c7_error_propagation trivCodecs rowBadCommit
  refine ⟨a1 (StoreError.AccountIdError ("bad")) rfl,
    b5 0 100 (some 105) (StoreError.ConversionError ("bad digest"))
      rfl rfl rfl rfl,
    d6 0 100 (some 105) 0 (StoreError.ConversionError ("bad digest"))
      rfl rfl rfl rfl rfl,
    f7 0 100 (some 105) 0 0 (StoreError.ConversionError ("bad digest"))
      rfl rfl rfl rfl rfl rfl,
    n8 0 100 (some 105) 0 0 0
      (StoreError.DeserializationError ("bad nullifiers"))
      rfl rfl rfl rfl rfl rfl rfl,
    o9 0 100 (some 105) 0 0 0 []
      (StoreError.DeserializationError ("bad notes"))
      rfl rfl rfl rfl rfl rfl rfl rfl,
    s10 0 100 (some 105) 0 0 0 [] 0 [1]
      (StoreError.DeserializationError ("bad script"))
      rfl rfl rfl rfl rfl rfl rfl rfl rfl rfl rfl,
    t3 0 100 ("x") rfl rfl rfl rfl,
    t11 Nat Nat.repr (fun _ => ScanResult.rows [rowBadCommit])
      TransactionFilter.All [] [] rowBadCommit
      (RunError.panicked unwrapMsg) rfl (by simp) ?_⟩
  exact t3 0 100 ("x") rfl rfl rfl rfl

end WebStoreTransaction
